import Mathlib

/-!
Verification of the weather-station event-counting core (src/main.cc).

The embedding models timestamps and deadlines (microseconds since boot,
uint64_t `absolute_time_t` on the device) as `Nat`: at microsecond
resolution a 64-bit counter wraps only after ~584000 years, so 64-bit
wraparound is unreachable for these quantities and the exact `Nat`
arithmetic coincides with the machine arithmetic on the reachable range.
Floating-point rate arithmetic is modelled over `ℚ` with the calibration
constants taken at their decimal values from the source.
-/

namespace Weatherstation

/-- Constant from the source: rain is reported every 10 minutes. -/
def kRainReportPeriodSecs : Nat := 10 * 60

/-- Constant from the source: wind is reported every 5 seconds. -/
def kWindReportPeriodSecs : Nat := 5

/-- Constant from the source: rain flush period in microseconds. -/
def kRainGaugeFlushUs : Nat := kRainReportPeriodSecs * 1000000

/-- Constant from the source: anemometer flush period in microseconds. -/
def kAnemometerFlushUs : Nat := kWindReportPeriodSecs * 1000000

/-- Constant from the source: GPIO pin of the anemometer. -/
def kAnemometerPin : Nat := 14

/-- Constant from the source: GPIO pin of the rain gauge. -/
def kRainGaugePin : Nat := 15

/-- Constant from the source: `kAnemometerSpeedPerTick = 1.73` mph. -/
def kAnemometerSpeedPerTick : ℚ := 173 / 100

/-- Constant from the source: `kRainGaugeInchesPerTick = 0.011` inches. -/
def kRainGaugeInchesPerTick : ℚ := 11 / 1000

/-- The debounced edge counter of the source (`struct RateLimitedCounter`):
`update_period` is the debounce interval, `next_update` the next eligible
timestamp (zero-initialized), `count` the accumulated tick count. -/
structure RateLimitedCounter where
  update_period : Nat
  next_update : Nat := 0
  count : Nat := 0
deriving DecidableEq

/-- Embeds `RateLimitedCounter::Inc`: if the timestamp is strictly past
`next_update`, increment `count` and move `next_update` to
`timestamp + update_period`; otherwise do nothing. -/
def RateLimitedCounter.Inc (c : RateLimitedCounter) (timestamp : Nat) :
    RateLimitedCounter :=
  if timestamp > c.next_update then
    { c with count := c.count + 1, next_update := timestamp + c.update_period }
  else
    c

/-- Embeds `RateLimitedCounter::Flush` (`std::exchange(count, 0)`): returns
the current count together with the counter after the reset. -/
def RateLimitedCounter.Flush (c : RateLimitedCounter) :
    Nat × RateLimitedCounter :=
  (c.count, { c with count := 0 })

/-- The two counter singletons touched by the GPIO interrupt callback. -/
structure Counters where
  anemometer_counter : RateLimitedCounter
  rain_gauge_counter : RateLimitedCounter
deriving DecidableEq

/-- Embeds the `gpio_irq_callback_t` lambda in `track_wind_and_rain`: the
anemometer pin feeds the anemometer counter, the rain-gauge pin the rain
counter, and any other pin only hits the default `printf` branch.  The
returned Bool is true exactly when the unexpected-gpio message is logged. -/
def dispatchEdge (c : Counters) (gpio : Nat) (timestamp : Nat) :
    Counters × Bool :=
  if gpio = kAnemometerPin then
    ({ c with anemometer_counter := c.anemometer_counter.Inc timestamp }, false)
  else if gpio = kRainGaugePin then
    ({ c with rain_gauge_counter := c.rain_gauge_counter.Inc timestamp }, false)
  else
    (c, true)

/-- Embeds the pico-sdk helper `absolute_time_diff_us(from, to)`, which
returns `to - from` as a signed value. -/
def absoluteTimeDiffUs (a b : Nat) : Int := (b : Int) - (a : Int)

/-- State of the scheduler loop in `track_wind_and_rain`: the two deadlines
and the two counters. -/
structure SchedState where
  next_rain_gauge_flush : Nat
  next_anemometer_flush : Nat
  rain_gauge_counter : RateLimitedCounter
  anemometer_counter : RateLimitedCounter
deriving DecidableEq

/-- Everything the critical section of one wake produces: the updated
state and, per window, the optional flushed tick count and the optional
captured old deadline (`std::exchange` result, named `*_end_time` in the
source). -/
structure WakeResult where
  state : SchedState
  rain_gauge_flush : Option Nat
  rain_gauge_end_time : Option Nat
  anemometer_flush : Option Nat
  anemometer_end_time : Option Nat
deriving DecidableEq

/-- Embeds the drain-and-reschedule critical section of one wake of the
scheduler loop (`portDISABLE_INTERRUPTS()` .. `portENABLE_INTERRUPTS()`):
each window fires when `absolute_time_diff_us(now, next_flush) < 0`; a
firing window flushes its counter, captures the old deadline, and resets
the deadline to `now` plus the window period. -/
def wakeStep (s : SchedState) (now : Nat) : WakeResult :=
  let r1 : WakeResult :=
    if absoluteTimeDiffUs now s.next_rain_gauge_flush < 0 then
      { state :=
          { s with
            rain_gauge_counter := (s.rain_gauge_counter.Flush).2,
            next_rain_gauge_flush := now + kRainGaugeFlushUs },
        rain_gauge_flush := some (s.rain_gauge_counter.Flush).1,
        rain_gauge_end_time := some s.next_rain_gauge_flush,
        anemometer_flush := none,
        anemometer_end_time := none }
    else
      { state := s,
        rain_gauge_flush := none,
        rain_gauge_end_time := none,
        anemometer_flush := none,
        anemometer_end_time := none }
  if absoluteTimeDiffUs now r1.state.next_anemometer_flush < 0 then
    { r1 with
      state :=
        { r1.state with
          anemometer_counter := (r1.state.anemometer_counter.Flush).2,
          next_anemometer_flush := now + kAnemometerFlushUs },
      anemometer_flush := some (r1.state.anemometer_counter.Flush).1,
      anemometer_end_time := some r1.state.next_anemometer_flush }
  else
    r1

/-- Embeds the elapsed-time computation of the publish phase:
`(flush_period_us + absolute_time_diff_us(now, end_time)) / 1e6`. -/
def elapsedTimeSec (flushUs : Nat) (now endTime : Nat) : ℚ :=
  ((flushUs : ℚ) + ((absoluteTimeDiffUs now endTime : Int) : ℚ)) / 1000000

/-- Embeds the wind rate computation:
`counted_wind_mph = ticks * kAnemometerSpeedPerTick` and
`wind_mph = counted_wind_mph / elapsed_time_sec`. -/
def windMph (ticks elapsedSec : ℚ) : ℚ :=
  ticks * kAnemometerSpeedPerTick / elapsedSec

/-- Embeds the rain rate computation:
`rain_inches = ticks * kRainGaugeInchesPerTick` and
`rain_inches_per_hour = rain_inches / elapsed_time_sec * 3600`. -/
def rainInchesPerHour (ticks elapsedSec : ℚ) : ℚ :=
  ticks * kRainGaugeInchesPerTick / elapsedSec * 3600

/-- Feeding a whole list of edge timestamps to a counter, in order
(`Inc` being the interrupt-context entry point for one edge). -/
def IncAll (c : RateLimitedCounter) (ts : List Nat) : RateLimitedCounter :=
  ts.foldl RateLimitedCounter.Inc c

/-- Admissible edge trains: each timestamp is strictly past the bound, and
each later timestamp is strictly more than `period` past its predecessor. -/
def Spaced (period : Nat) : Nat → List Nat → Prop
  | _, [] => True
  | lo, t :: ts => lo < t ∧ Spaced period (t + period) ts

/-- A spaced edge train starting strictly past `next_update` is counted in
full: every edge is accepted. -/
theorem IncAll_count_of_spaced (ts : List Nat) :
    ∀ c : RateLimitedCounter, Spaced c.update_period c.next_update ts →
      (IncAll c ts).count = c.count + ts.length := by
  induction ts with
  | nil => intro c _; rfl
  | cons t ts ih =>
    intro c h
    obtain ⟨hlt, hrest⟩ := h
    have hstep : c.Inc t =
        ⟨c.update_period, t + c.update_period, c.count + 1⟩ := by
      simp [RateLimitedCounter.Inc, hlt]
    have hrec := ih ⟨c.update_period, t + c.update_period, c.count + 1⟩ hrest
    simp only [IncAll, List.foldl_cons] at hrec ⊢
    rw [hstep, hrec]
    show c.count + 1 + ts.length = c.count + (ts.length + 1)
    omega

/-- The fixed 16-entry calibration table `adc_targets` of
`LevelToDirection`, in source order. -/
def adc_targets : List (String × Int) :=
  [("NE", 2901), ("E", 936), ("SE", 1616), ("S", 2195),
   ("SW", 3382), ("W", 3984), ("NW", 3893), ("N", 3716),
   ("NNE", 2705), ("ENE", 855), ("ESE", 693), ("SSE", 1204),
   ("SSW", 1972), ("WSW", 3305), ("WNW", 3792), ("NNW", 3548)]

/-- Value of `std::numeric_limits<int>::max()` used to seed `min_diff`. -/
def INT_MAX : Int := 2147483647

/-- Embeds the scan loop of `LevelToDirection`: walks the table keeping
the smallest `abs(target - adc_reading)` seen so far (strict improvement
only) and the index where it was first seen; returns the final
`(min_diff, min_index)` pair. -/
def levelLoop (adc_reading : Int) :
    List (String × Int) → Nat → Int → Int → Int × Int
  | [], _, min_diff, min_index => (min_diff, min_index)
  | p :: rest, i, min_diff, min_index =>
    if min_diff > |p.2 - adc_reading| then
      levelLoop adc_reading rest (i + 1) |p.2 - adc_reading| (i : Int)
    else
      levelLoop adc_reading rest (i + 1) min_diff min_index

/-- Embeds `LevelToDirection`: run the scan over the whole table starting
from `min_diff = INT_MAX`, `min_index = -1`, and return the label at the
final index. -/
def LevelToDirection (adc_reading : Int) : String :=
  ((adc_targets.getD
      (levelLoop adc_reading adc_targets 0 INT_MAX (-1)).2.toNat
      ("", 0))).1

/-- Absolute difference between a table entry and the reading, the
quantity the source calls `diff`. -/
def adcDiff (adc_reading : Int) (p : String × Int) : Int :=
  |p.2 - adc_reading|

/-- Loop invariant of the classifier scan: if `(md, mi)` is the running
minimum and first-minimizing index over an already-processed prefix, then
running the loop over the rest yields the minimum and first-minimizing
index over the whole list. -/
theorem levelLoop_first_argmin (r : Int) (l : List (String × Int)) :
    ∀ (pre : List (String × Int)) (md mi : Int) (k : Nat),
      mi = (k : Int) → k < pre.length →
      md = adcDiff r (pre.getD k ("", 0)) →
      (∀ j, j < pre.length → md ≤ adcDiff r (pre.getD j ("", 0))) →
      (∀ j, j < k → md < adcDiff r (pre.getD j ("", 0))) →
      ∃ k2 : Nat,
        (levelLoop r l pre.length md mi).2 = (k2 : Int)
          ∧ k2 < (pre ++ l).length
          ∧ (levelLoop r l pre.length md mi).1
              = adcDiff r ((pre ++ l).getD k2 ("", 0))
          ∧ (∀ j, j < (pre ++ l).length →
              (levelLoop r l pre.length md mi).1
                ≤ adcDiff r ((pre ++ l).getD j ("", 0)))
          ∧ (∀ j, j < k2 →
              (levelLoop r l pre.length md mi).1
                < adcDiff r ((pre ++ l).getD j ("", 0))) := by
  induction l with
  | nil =>
    intro pre md mi k h1 h2 h3 h4 h5
    refine ⟨k, ?_⟩
    simp only [levelLoop, List.append_nil]
    exact ⟨h1, h2, h3, h4, h5⟩
  | cons p rest ih =>
    intro pre md mi k h1 h2 h3 h4 h5
    simp only [levelLoop]
    by_cases h : md > |p.2 - r|
    · rw [if_pos h]
      have hlen : pre.length + 1 = (pre ++ [p]).length := by simp
      have hk2 : pre.length < (pre ++ [p]).length := by simp
      have hgetp : (pre ++ [p]).getD pre.length ("", 0) = p := by
        rw [List.getD_append_right pre [p] ("", 0) pre.length le_rfl]
        simp
      have hpre : ∀ j, j < pre.length →
          (pre ++ [p]).getD j ("", 0) = pre.getD j ("", 0) := by
        intro j hj
        exact List.getD_append pre [p] ("", 0) j hj
      have hres := ih (pre ++ [p]) |p.2 - r| ((pre.length : Nat) : Int)
        pre.length rfl hk2 (by rw [hgetp]; rfl) ?_ ?_
      · rw [hlen]
        obtain ⟨k2, hc1, hc2, hc3, hc4, hc5⟩ := hres
        rw [List.append_assoc, List.singleton_append] at hc2 hc3 hc4 hc5
        exact ⟨k2, hc1, hc2, hc3, hc4, hc5⟩
      · intro j hj
        rw [← hlen] at hj
        rcases Nat.lt_succ_iff_lt_or_eq.mp hj with hj2 | hj2
        · rw [hpre j hj2]
          exact le_of_lt (lt_of_lt_of_le h (h4 j hj2))
        · subst hj2
          rw [hgetp]
          exact le_of_eq rfl
      · intro j hj
        rw [hpre j hj]
        exact lt_of_lt_of_le h (h4 j hj)
    · rw [if_neg h]
      have hle : md ≤ |p.2 - r| := le_of_not_lt h
      have hlen : pre.length + 1 = (pre ++ [p]).length := by simp
      have hgetp : (pre ++ [p]).getD pre.length ("", 0) = p := by
        rw [List.getD_append_right pre [p] ("", 0) pre.length le_rfl]
        simp
      have hpre : ∀ j, j < pre.length →
          (pre ++ [p]).getD j ("", 0) = pre.getD j ("", 0) := by
        intro j hj
        exact List.getD_append pre [p] ("", 0) j hj
      have hres := ih (pre ++ [p]) md mi k h1
        (lt_of_lt_of_le h2 (by simp)) ?_ ?_ ?_
      · rw [hlen]
        obtain ⟨k2, hc1, hc2, hc3, hc4, hc5⟩ := hres
        rw [List.append_assoc, List.singleton_append] at hc2 hc3 hc4 hc5
        exact ⟨k2, hc1, hc2, hc3, hc4, hc5⟩
      · rw [hpre k h2]
        exact h3
      · intro j hj
        rw [← hlen] at hj
        rcases Nat.lt_succ_iff_lt_or_eq.mp hj with hj2 | hj2
        · rw [hpre j hj2]
          exact h4 j hj2
        · subst hj2
          rw [hgetp]
          exact hle
      · intro j hj
        rw [hpre j (lt_trans hj h2)]
        exact h5 j hj

/-- First step of the classifier scan: when the head diff beats the
`INT_MAX` seed, the loop continues on the tail with the head as running
minimum at index 0. -/
theorem levelLoop_start (r : Int) (p : String × Int)
    (rest : List (String × Int)) (h : INT_MAX > adcDiff r p) :
    levelLoop r (p :: rest) 0 INT_MAX (-1)
      = levelLoop r rest 1 (adcDiff r p) ((0 : Nat) : Int) := by
  simp only [adcDiff] at h
  simp only [levelLoop, adcDiff]
  rw [if_pos h]

/-- C8: for every reading in the range the ADC can deliver (a 16-bit
unsigned sample), `LevelToDirection` returns the label of the first table
entry, in table order, whose absolute difference from the reading is
minimal: the result label sits at an index whose diff is a global minimum
and every strictly earlier index has a strictly larger diff, so an exact
hit returns that entry and ties go to the earlier-indexed entry. -/
theorem LevelToDirection_first_argmin (r : Int) (h0 : 0 ≤ r)
    (h1 : r < 65536) :
    ∃ k : Nat, k < adc_targets.length
      ∧ LevelToDirection r = (adc_targets.getD k ("", 0)).1
      ∧ (∀ j, j < adc_targets.length →
          adcDiff r (adc_targets.getD k ("", 0))
            ≤ adcDiff r (adc_targets.getD j ("", 0)))
      ∧ (∀ j, j < k →
          adcDiff r (adc_targets.getD k ("", 0))
            < adcDiff r (adc_targets.getD j ("", 0))) := by
  have hc : INT_MAX > adcDiff r ("NE", 2901) := by
    show (2147483647 : Int) > |2901 - r|
    rw [gt_iff_lt, abs_lt]
    omega
  have hstart := levelLoop_start r ("NE", 2901) adc_targets.tail hc
  have hlist : ("NE", (2901 : Int)) :: adc_targets.tail = adc_targets := rfl
  rw [hlist] at hstart
  have key := levelLoop_first_argmin r adc_targets.tail [("NE", 2901)]
    (adcDiff r ("NE", 2901)) ((0 : Nat) : Int) 0 rfl (by norm_num)
    (by rfl) ?_ ?_
  · simp only [List.length_singleton, List.singleton_append] at key
    rw [hlist, ← hstart] at key
    obtain ⟨k2, hk1, hk2, hk3, hk4, hk5⟩ := key
    rw [hk3] at hk4 hk5
    refine ⟨k2, hk2, ?_, hk4, hk5⟩
    simp only [LevelToDirection, hk1, Int.toNat_natCast]
  · intro j hj
    simp only [List.length_singleton] at hj
    have hj0 : j = 0 := Nat.lt_one_iff.mp hj
    subst hj0
    exact le_refl _
  · intro j hj
    exact absurd hj (Nat.not_lt_zero j)

/-- C8 witness: the theorem applied at reading 936, which is exactly the
target of table entry 1 ("E"). -/
theorem LevelToDirection_first_argmin_witness :
    (0 : Int) ≤ 936 ∧ (936 : Int) < 65536
      ∧ ∃ k : Nat, k < adc_targets.length
        ∧ LevelToDirection 936 = (adc_targets.getD k ("", 0)).1
        ∧ (∀ j, j < adc_targets.length →
            adcDiff 936 (adc_targets.getD k ("", 0))
              ≤ adcDiff 936 (adc_targets.getD j ("", 0)))
        ∧ (∀ j, j < k →
            adcDiff 936 (adc_targets.getD k ("", 0))
              < adcDiff 936 (adc_targets.getD j ("", 0))) :=
  ⟨by norm_num, by norm_num,
    LevelToDirection_first_argmin 936 (by norm_num) (by norm_num)⟩

/-- C5: for every counter state and timestamp, `Inc` increments `count` by
exactly one and moves `next_update` to `timestamp + update_period` when the
timestamp is strictly past `next_update`, and otherwise changes neither
field; `update_period` is never changed. -/
theorem Inc_increments_iff_past_next_update (c : RateLimitedCounter)
    (now : Nat) :
    ((c.Inc now).count = if c.next_update < now then c.count + 1 else c.count)
      ∧ ((c.Inc now).next_update =
          if c.next_update < now then now + c.update_period
          else c.next_update)
      ∧ (c.Inc now).update_period = c.update_period := by
  unfold RateLimitedCounter.Inc
  by_cases h : c.next_update < now <;> simp [h]

/-- C6: `Flush` returns the current count and resets the stored count to
zero, so an immediate second `Flush` returns zero. -/
theorem Flush_take_and_reset (c : RateLimitedCounter) :
    (c.Flush).1 = c.count ∧ ((c.Flush).2).count = 0
      ∧ (((c.Flush).2).Flush).1 = 0 := by
  exact ⟨rfl, rfl, rfl⟩

/-- C10: `Flush` modifies only `count`; both `next_update` and
`update_period` are left unchanged, so debouncing after a drain still uses
the eligibility instant established before the drain. -/
theorem Flush_frame (c : RateLimitedCounter) :
    ((c.Flush).2).next_update = c.next_update
      ∧ ((c.Flush).2).update_period = c.update_period := by
  exact ⟨rfl, rfl⟩

/-- C9: an edge on any pin other than the anemometer pin (14) and the
rain-gauge pin (15) is logged and leaves both counters completely
unchanged. -/
theorem dispatchEdge_unknown_pin (c : Counters) (gpio timestamp : Nat)
    (h1 : gpio ≠ kAnemometerPin) (h2 : gpio ≠ kRainGaugePin) :
    dispatchEdge c gpio timestamp = (c, true) := by
  simp [dispatchEdge, h1, h2]

/-- C9 witness: pin 7 at timestamp 42 with nonzero counter state is logged
and changes nothing. -/
theorem dispatchEdge_unknown_pin_witness :
    dispatchEdge ⟨⟨17300, 5, 2⟩, ⟨6600000, 9, 1⟩⟩ 7 42
      = (⟨⟨17300, 5, 2⟩, ⟨6600000, 9, 1⟩⟩, true) :=
  dispatchEdge_unknown_pin ⟨⟨17300, 5, 2⟩, ⟨6600000, 9, 1⟩⟩ 7 42
    (by decide) (by decide)

/-- C2 counterexample: on a freshly created counter with debounce interval
5, the strictly increasing train [1, 6] — consecutive separation exactly
equal to the debounce interval — yields count 1, not 2; and the train [0]
yields count 0, not 1, because `Inc` requires the timestamp to be strictly
past the zero-initialized `next_update`. -/
theorem IncAll_drops_equal_separation :
    (IncAll ⟨5, 0, 0⟩ [1, 6]).count ≠ 2
      ∧ (IncAll ⟨5, 0, 0⟩ [0]).count ≠ 1 := by
  decide

/-- C2 (amended): for every debounce interval and every edge train that is
strictly increasing with consecutive separations strictly greater than the
debounce interval and first timestamp strictly greater than zero, a fresh
counter counts every edge: the final count is the train length. -/
theorem IncAll_counts_all_spaced_edges (period : Nat) (ts : List Nat)
    (h : Spaced period 0 ts) :
    (IncAll ⟨period, 0, 0⟩ ts).count = ts.length := by
  have h0 := IncAll_count_of_spaced ts ⟨period, 0, 0⟩ h
  simpa using h0

/-- C2 witness: with debounce interval 5, the admissible train [1, 7] is
counted in full. -/
theorem IncAll_counts_all_spaced_edges_witness :
    (IncAll ⟨5, 0, 0⟩ [1, 7]).count = 2 :=
  IncAll_counts_all_spaced_edges 5 [1, 7] ⟨by decide, by decide, trivial⟩

/-- The firing condition of the source, `absolute_time_diff_us(now, next)
< 0`, holds exactly when the deadline is strictly before `now`. -/
theorem absoluteTimeDiffUs_neg_iff (a b : Nat) :
    absoluteTimeDiffUs a b < 0 ↔ b < a := by
  simp only [absoluteTimeDiffUs]
  omega

/-- C3 counterexample: with both deadlines exactly equal to the wake time
(deadline ≤ now holds), neither window is drained and neither deadline is
rescheduled: the wake leaves the whole state unchanged and flushes
nothing. -/
theorem wakeStep_skips_deadline_equal_now :
    (100 : Nat) ≤ 100
      ∧ (wakeStep ⟨100, 100, ⟨6600000, 0, 3⟩, ⟨17300, 0, 2⟩⟩ 100).state
          = ⟨100, 100, ⟨6600000, 0, 3⟩, ⟨17300, 0, 2⟩⟩
      ∧ (wakeStep ⟨100, 100, ⟨6600000, 0, 3⟩, ⟨17300, 0, 2⟩⟩
          100).rain_gauge_flush = none
      ∧ (wakeStep ⟨100, 100, ⟨6600000, 0, 3⟩, ⟨17300, 0, 2⟩⟩
          100).anemometer_flush = none := by
  decide

/-- Full characterization of one drain-and-reschedule step, per component:
each window flushes, resets its counter, captures its old deadline and
reschedules exactly when its deadline is strictly before `now`. -/
theorem wakeStep_eq (s : SchedState) (now : Nat) :
    ((wakeStep s now).rain_gauge_flush =
        if s.next_rain_gauge_flush < now then some s.rain_gauge_counter.count
        else none)
      ∧ ((wakeStep s now).state.rain_gauge_counter =
          if s.next_rain_gauge_flush < now then
            { s.rain_gauge_counter with count := 0 }
          else s.rain_gauge_counter)
      ∧ ((wakeStep s now).state.next_rain_gauge_flush =
          if s.next_rain_gauge_flush < now then now + kRainGaugeFlushUs
          else s.next_rain_gauge_flush)
      ∧ ((wakeStep s now).rain_gauge_end_time =
          if s.next_rain_gauge_flush < now then some s.next_rain_gauge_flush
          else none)
      ∧ ((wakeStep s now).anemometer_flush =
          if s.next_anemometer_flush < now then some s.anemometer_counter.count
          else none)
      ∧ ((wakeStep s now).state.anemometer_counter =
          if s.next_anemometer_flush < now then
            { s.anemometer_counter with count := 0 }
          else s.anemometer_counter)
      ∧ ((wakeStep s now).state.next_anemometer_flush =
          if s.next_anemometer_flush < now then now + kAnemometerFlushUs
          else s.next_anemometer_flush)
      ∧ ((wakeStep s now).anemometer_end_time =
          if s.next_anemometer_flush < now then some s.next_anemometer_flush
          else none) := by
  by_cases hr : s.next_rain_gauge_flush < now
    <;> by_cases ha : s.next_anemometer_flush < now
    <;> simp [wakeStep, absoluteTimeDiffUs_neg_iff, hr, ha,
         RateLimitedCounter.Flush]

/-- C3 (amended): on every wake, a window whose deadline is strictly
before `now` is drained (its flushed tick count is the counter value, the
counter is reset, the old deadline is captured as the end time) and its
deadline is rescheduled to `now` plus its period; a window whose deadline
is at or after `now` (equality included) is neither drained nor
rescheduled. -/
theorem wakeStep_drains_strictly_due (s : SchedState) (now : Nat) :
    ((wakeStep s now).rain_gauge_flush =
        if s.next_rain_gauge_flush < now then some s.rain_gauge_counter.count
        else none)
      ∧ ((wakeStep s now).state.rain_gauge_counter =
          if s.next_rain_gauge_flush < now then
            { s.rain_gauge_counter with count := 0 }
          else s.rain_gauge_counter)
      ∧ ((wakeStep s now).state.next_rain_gauge_flush =
          if s.next_rain_gauge_flush < now then now + kRainGaugeFlushUs
          else s.next_rain_gauge_flush)
      ∧ ((wakeStep s now).rain_gauge_end_time =
          if s.next_rain_gauge_flush < now then some s.next_rain_gauge_flush
          else none)
      ∧ ((wakeStep s now).anemometer_flush =
          if s.next_anemometer_flush < now then some s.anemometer_counter.count
          else none)
      ∧ ((wakeStep s now).state.anemometer_counter =
          if s.next_anemometer_flush < now then
            { s.anemometer_counter with count := 0 }
          else s.anemometer_counter)
      ∧ ((wakeStep s now).state.next_anemometer_flush =
          if s.next_anemometer_flush < now then now + kAnemometerFlushUs
          else s.next_anemometer_flush)
      ∧ ((wakeStep s now).anemometer_end_time =
          if s.next_anemometer_flush < now then some s.next_anemometer_flush
          else none) :=
  wakeStep_eq s now

/-- C7 counterexample: ending a drain-and-reschedule step with the
anemometer deadline exactly equal to the wake time: that deadline is not
strictly greater than `now` at the end of the step, refuting the claimed
strict invariant. -/
theorem wakeStep_deadline_can_equal_now :
    ¬ (100 : Nat) <
        (wakeStep ⟨1000000000, 100, ⟨6600000, 0, 0⟩, ⟨17300, 0, 0⟩⟩
          100).state.next_anemometer_flush := by
  decide

/-- C7 (amended): a window that fires has its deadline reset to `now` plus
its nominal period — measured from the wake time, not the stale deadline —
and that reset deadline is strictly greater than `now`; at the end of
every drain-and-reschedule step both deadlines are at least `now`, with
equality possible for a window whose deadline equalled `now` exactly (such
a window does not fire and keeps its deadline). -/
theorem wakeStep_reschedules_from_now (s : SchedState) (now : Nat) :
    now ≤ (wakeStep s now).state.next_rain_gauge_flush
      ∧ now ≤ (wakeStep s now).state.next_anemometer_flush
      ∧ (s.next_rain_gauge_flush < now →
          (wakeStep s now).state.next_rain_gauge_flush
              = now + kRainGaugeFlushUs
            ∧ now < (wakeStep s now).state.next_rain_gauge_flush)
      ∧ (s.next_anemometer_flush < now →
          (wakeStep s now).state.next_anemometer_flush
              = now + kAnemometerFlushUs
            ∧ now < (wakeStep s now).state.next_anemometer_flush) := by
  have h := wakeStep_eq s now
  obtain ⟨-, -, hr, -, -, -, ha, -⟩ := h
  rw [hr, ha]
  by_cases hrn : s.next_rain_gauge_flush < now
    <;> by_cases han : s.next_anemometer_flush < now
    <;> simp [hrn, han, kRainGaugeFlushUs, kAnemometerFlushUs,
         kRainReportPeriodSecs, kWindReportPeriodSecs]
    <;> omega

/-- C7 witness: with both deadlines strictly past (rain at 50, anemometer
at 60, wake at 100) both windows fire and both deadlines are reset from
the wake time and end strictly in the future. -/
theorem wakeStep_reschedules_from_now_witness :
    (100 : Nat) ≤ (wakeStep ⟨50, 60, ⟨6600000, 0, 0⟩, ⟨17300, 0, 0⟩⟩
        100).state.next_rain_gauge_flush
      ∧ (wakeStep ⟨50, 60, ⟨6600000, 0, 0⟩, ⟨17300, 0, 0⟩⟩
            100).state.next_rain_gauge_flush = 100 + kRainGaugeFlushUs
      ∧ (wakeStep ⟨50, 60, ⟨6600000, 0, 0⟩, ⟨17300, 0, 0⟩⟩
            100).state.next_anemometer_flush = 100 + kAnemometerFlushUs := by
  have h := wakeStep_reschedules_from_now
    ⟨50, 60, ⟨6600000, 0, 0⟩, ⟨17300, 0, 0⟩⟩ 100
  exact ⟨h.1, (h.2.2.1 (by decide)).1, (h.2.2.2 (by decide)).1⟩

/-- C4: the reported rate is `ticks * per_tick_constant / elapsed_seconds`,
scaled by 3600 for the rain window and not for the wind window; in
particular 10 wind ticks over 30 s give 173/300 ≈ 0.577 mph and 5 rain
ticks over 600 s give exactly 0.33 in/h. -/
theorem rate_formulas :
    (∀ ticks elapsedSec : ℚ,
        windMph ticks elapsedSec
          = ticks * kAnemometerSpeedPerTick / elapsedSec)
      ∧ (∀ ticks elapsedSec : ℚ,
          rainInchesPerHour ticks elapsedSec
            = ticks * kRainGaugeInchesPerTick / elapsedSec * 3600)
      ∧ windMph 10 30 = 173 / 300
      ∧ rainInchesPerHour 5 600 = 33 / 100 := by
  refine ⟨fun _ _ => rfl, fun _ _ => rfl, ?_, ?_⟩
  · norm_num [windMph, kAnemometerSpeedPerTick]
  · norm_num [rainInchesPerHour, kRainGaugeInchesPerTick]

/-- C1: at the specification scenario (5-second window, old deadline at
5.000000 s, wake at 5.020000 s) the code captures the old deadline as the
end time and computes an elapsed time of 4.98 s — the nominal period MINUS
the overshoot — not the 5.02 s the specification requires. -/
theorem elapsed_is_nominal_minus_overshoot :
    (wakeStep ⟨1000000000, 5000000, ⟨6600000, 0, 0⟩, ⟨17300, 0, 3⟩⟩
        5020000).anemometer_end_time = some 5000000
      ∧ elapsedTimeSec kAnemometerFlushUs 5020000 5000000 = 249 / 50
      ∧ (249 / 50 : ℚ) ≠ 251 / 50 := by
  refine ⟨by decide, ?_, by norm_num⟩
  norm_num [elapsedTimeSec, absoluteTimeDiffUs, kAnemometerFlushUs,
    kWindReportPeriodSecs]

end Weatherstation
